import Mathlib

/-!
Verification development for `scripts/verify_storage.py` of the
D-Nine-Chain/contracts repository: a shallow embedding of the storage-layout
field extractor (`StorageLayoutChecker.extract_storage_fields`) and the layout
comparator (`StorageLayoutChecker.verify_storage_unchanged`), together with
theorems settling the specification claims about them.

File I/O performed by the Python code (reading `lib.rs`, reading and writing
`storage-layouts.json`) is embedded by passing the outcome of each external
read as an explicit parameter and reporting the write the function performs as
part of its result, so every function here is pure and executable.
-/

namespace VerifyStorage

/-- Python `\s` on the ASCII range: the whitespace characters recognised by the
regular expressions and by `str.strip()` in `verify_storage.py`. -/
def isSpaceChar (c : Char) : Bool :=
  c = ' ' || c = '\t' || c = '\n' || c = '\r' || c = '\x0b' || c = '\x0c'

/-- Python `\w` on the ASCII range: letters, digits and underscore. -/
def isWordChar (c : Char) : Bool :=
  c.isAlpha || c.isDigit || c = '_'

/-- Drop the literal prefix `lit` from `cs`, returning the remainder, or
`none` when `cs` does not start with `lit`. -/
def dropLit : List Char → List Char → Option (List Char)
  | [], cs => some cs
  | _ :: _, [] => none
  | l :: ls, c :: cs => if c = l then dropLit ls cs else none

/-- True when `cs` starts with the literal `pre` (used for the
`str.startswith` calls at line 66 of the source). -/
def startsWithChars (pre cs : List Char) : Bool :=
  (dropLit pre cs).isSome

/-- The characters of `cs` strictly before the first closing brace, or `none`
when `cs` has no closing brace: the semantics of the non-greedy tail
`(.*?)\x7d` (DOTALL) of the storage-struct pattern at line 37. -/
def bodyUpTo : List Char → Option (List Char)
  | [] => none
  | '\x7d' :: _ => some []
  | c :: rest => Option.map (fun body => c :: body) (bodyUpTo rest)

/-- Attempt to match the storage-struct pattern of line 37 of the source,
anchored at the start of `cs`, returning the captured struct body.  The
pattern is literal text `#[ink(storage)]`, then `\s*`, then literal
`pub struct `, then `\w+`, then a space and an opening brace, then the
non-greedy DOTALL capture up to the first closing brace.  Since `\s` and `\w`
are disjoint from the literal characters that follow them in the pattern,
greedy runs with backtracking coincide with maximal runs. -/
def matchStorageAt (cs : List Char) : Option (List Char) :=
  match dropLit ("#[ink(storage)]".toList) cs with
  | none => none
  | some cs1 =>
    let cs2 := cs1.dropWhile isSpaceChar
    match dropLit ("pub struct ".toList) cs2 with
    | none => none
    | some cs3 =>
      match cs3.span isWordChar with
      | ([], _) => none
      | (_ :: _, cs4) =>
        match dropLit [' ', '\x7b'] cs4 with
        | none => none
        | some cs5 => bodyUpTo cs5

/-- `re.search` of the storage-struct pattern: try to match at each position
from the left, returning the first captured body. -/
def searchStorage (cs : List Char) : Option (List Char) :=
  match matchStorageAt cs with
  | some body => some body
  | none =>
    match cs with
    | [] => none
    | _ :: rest => searchStorage rest

/-- Fuelled worker for `re.sub(r'//.*', '', s)` (line 58 of the source):
delete every maximal run from `//` up to, but not including, the next
newline.  Each step consumes at least one character, so fuel equal to the
length of the input never runs out. -/
def stripLineCommentsF : Nat → List Char → List Char
  | 0, _ => []
  | _ + 1, [] => []
  | fuel + 1, '/' :: '/' :: rest =>
    stripLineCommentsF fuel (rest.dropWhile (fun c => c != '\n'))
  | fuel + 1, c :: rest => c :: stripLineCommentsF fuel rest

/-- `re.sub(r'//.*', '', storage_content)`: strip line comments. -/
def stripLineComments (cs : List Char) : List Char :=
  stripLineCommentsF cs.length cs

/-- The remainder of `cs` strictly after the first `*/`, or `none` when `cs`
contains no `*/`: the landing position of the non-greedy `.*?\*/`. -/
def afterBlockClose : List Char → Option (List Char)
  | [] => none
  | '*' :: '/' :: rest => some rest
  | _ :: rest => afterBlockClose rest

/-- Fuelled worker for `re.sub(r'/\*.*?\*/', '', s, flags=re.DOTALL)`
(line 59 of the source): delete every non-greedy block comment.  When a `/*`
has no closing `*/` anywhere after it, nothing later in the text can close a
block comment either, so the remainder is kept verbatim, exactly as `re.sub`
leaves an unmatched tail untouched. -/
def stripBlockCommentsF : Nat → List Char → List Char
  | 0, _ => []
  | _ + 1, [] => []
  | fuel + 1, '/' :: '*' :: rest =>
    (match afterBlockClose rest with
     | some rest2 => stripBlockCommentsF fuel rest2
     | none => '/' :: '*' :: rest)
  | fuel + 1, c :: rest => c :: stripBlockCommentsF fuel rest

/-- `re.sub(r'/\*.*?\*/', '', storage_content, flags=re.DOTALL)`. -/
def stripBlockComments (cs : List Char) : List Char :=
  stripBlockCommentsF cs.length cs

/-- Split `cs` at its first comma: `some (before, after)` with the comma
removed, or `none` when `cs` has no comma. -/
def splitFirstComma : List Char → Option (List Char × List Char)
  | [] => none
  | ',' :: rest => some ([], rest)
  | c :: rest =>
    Option.map (fun pr => (c :: pr.1, pr.2)) (splitFirstComma rest)

/-- Given the nonempty run `tyRaw` of non-comma characters standing between
the colon and the first comma, the text captured by group 2 of
`\s*([^,]+),`: the greedy `\s*` takes the maximal whitespace prefix, except
that when the whole run is whitespace it backs off by one character so that
`[^,]+` can still take its mandatory character. -/
def captureGroup2 (tyRaw : List Char) : List Char :=
  let ws := (tyRaw.takeWhile isSpaceChar).length
  if ws < tyRaw.length then tyRaw.drop ws else tyRaw.drop (tyRaw.length - 1)

/-- Attempt to match `(\w+)\s*:\s*([^,]+),` anchored at the start of `cs`,
returning (group 1, group 2, remainder after the terminating comma).  The
match succeeds exactly when a nonempty word run is followed (after optional
whitespace) by a colon, and the text after the colon contains a comma with at
least one character before it. -/
def coreField (cs : List Char) : Option (List Char × List Char × List Char) :=
  match cs.span isWordChar with
  | ([], _) => none
  | (nm@(_ :: _), rest1) =>
    match rest1.dropWhile isSpaceChar with
    | ':' :: rest3 =>
      match splitFirstComma rest3 with
      | some (tyRaw@(_ :: _), rest4) => some (nm, captureGroup2 tyRaw, rest4)
      | _ => none
    | _ => none

/-- Attempt the optional qualifier `(?:pub\s+)?` anchored at the start of
`cs`: literal `pub` followed by at least one whitespace character, consuming
the maximal whitespace run. -/
def tryPubQualifier (cs : List Char) : Option (List Char) :=
  match dropLit "pub".toList cs with
  | none => none
  | some rest =>
    match rest with
    | c :: _ => if isSpaceChar c then some (rest.dropWhile isSpaceChar) else none
    | [] => none

/-- Attempt the full field pattern `(?:pub\s+)?(\w+)\s*:\s*([^,]+),` of
line 52 of the source, anchored at the start of `cs`.  As in the regex
engine, the optional qualifier is tried first and abandoned when the rest of
the pattern cannot follow it. -/
def matchFieldAt (cs : List Char) : Option (List Char × List Char × List Char) :=
  match tryPubQualifier cs with
  | some csAfterPub =>
    (match coreField csAfterPub with
     | some r => some r
     | none => coreField cs)
  | none => coreField cs

/-- Fuelled worker for `re.finditer` of the field pattern (line 61 of the
source): scan left to right, at each position attempting a match; on success
continue after the matched text, on failure advance one character.  Every
step consumes at least one character, so fuel equal to the length of the
input never runs out. -/
def scanFieldsF : Nat → List Char → List (List Char × List Char)
  | 0, _ => []
  | _ + 1, [] => []
  | fuel + 1, c :: rest =>
    match matchFieldAt (c :: rest) with
    | some (n, t, after) => (n, t) :: scanFieldsF fuel after
    | none => scanFieldsF fuel rest

/-- All (group 1, group 2) pairs produced by `re.finditer` of the field
pattern over the comment-stripped struct body. -/
def scanFields (cs : List Char) : List (List Char × List Char) :=
  scanFieldsF cs.length cs

/-- Python `str.strip()`: remove leading and trailing whitespace. -/
def stripChars (cs : List Char) : List Char :=
  ((cs.dropWhile isSpaceChar).reverse.dropWhile isSpaceChar).reverse

/-- The `StorageField` dataclass of the source (lines 14-23): a named, typed
member at a zero-based position.  The derived equality coincides with the
dataclass `__eq__`, which compares all three components. -/
structure StorageField where
  name : String
  field_type : String
  position : Nat
deriving DecidableEq, Repr

/-- The field-collection loop of lines 61-74 of the source: strip each
captured name and type, skip entries whose name starts with `//` or `#`
(unreachable for `\w+` captures, but present in the source), and number the
retained entries consecutively from the running position counter. -/
def buildFields : List (List Char × List Char) → Nat → List StorageField
  | [], _ => []
  | (n, t) :: rest, position =>
    let field_name := stripChars n
    let field_type := stripChars t
    if startsWithChars ['/', '/'] field_name || startsWithChars ['#'] field_name then
      buildFields rest position
    else
      { name := String.mk field_name
        field_type := String.mk field_type
        position := position } :: buildFields rest (position + 1)

/-- `StorageLayoutChecker.extract_storage_fields` (lines 29-76 of the
source), embedded on the contents of `lib.rs` rather than its path: locate
the storage struct, raise `ValueError` (here: `Except.error`) when it is
absent, otherwise strip comments from the captured body and collect the
fields matched by the field pattern.  The Python exception message
interpolates the contract path; the embedding keeps its constant prefix. -/
def extract_storage_fields (content : String) : Except String (List StorageField) :=
  match searchStorage content.toList with
  | none => Except.error "No storage struct found"
  | some storage_content =>
    let no_line := stripLineComments storage_content
    let no_comments := stripBlockComments no_line
    Except.ok (buildFields (scanFields no_comments) 0)

/-- One classified entry of the `errors` list built by
`verify_storage_unchanged` (lines 126-161 of the source).  Each constructor
models exactly one of the f-string appends; `renderDiscrepancy` recovers the
message text.  The source reports all added (resp. removed) names in a single
message built from a Python set, modelled here as one constructor carrying
the list of names. -/
inductive Discrepancy where
  | countChanged (old_count new_count : Nat)
  | addedFields (names : List String)
  | removedFields (names : List String)
  | positionMismatch (name : String) (old_position new_position : Nat)
  | nameChangedAtPosition (position : Nat) (old_name new_name : String)
  | typeChangedAtPosition (name : String) (old_type new_type : String)
deriving DecidableEq, Repr

/-- Recogniser for the `positionMismatch` constructor. -/
def Discrepancy.isPositionMismatch : Discrepancy → Bool
  | .positionMismatch _ _ _ => true
  | _ => false

/-- Recogniser for the `nameChangedAtPosition` constructor. -/
def Discrepancy.isNameChanged : Discrepancy → Bool
  | .nameChangedAtPosition _ _ _ => true
  | _ => false

/-- Recogniser for the `typeChangedAtPosition` constructor. -/
def Discrepancy.isTypeChanged : Discrepancy → Bool
  | .typeChangedAtPosition _ _ _ => true
  | _ => false

/-- Recogniser for the `addedFields` constructor. -/
def Discrepancy.isAdded : Discrepancy → Bool
  | .addedFields _ => true
  | _ => false

/-- Recogniser for the `removedFields` constructor. -/
def Discrepancy.isRemoved : Discrepancy → Bool
  | .removedFields _ => true
  | _ => false

/-- Recogniser for the `countChanged` constructor. -/
def Discrepancy.isCountChanged : Discrepancy → Bool
  | .countChanged _ _ => true
  | _ => false

/-- The message text of each discrepancy, exactly as the f-strings of
lines 130-160 of the source produce it (the join order of the added and
removed name sets is whatever order the carried list records). -/
def renderDiscrepancy : Discrepancy → String
  | .countChanged o n =>
      "Number of fields changed: " ++ toString o ++ " → " ++ toString n
  | .addedFields names => "Added fields: " ++ String.intercalate ", " names
  | .removedFields names => "Removed fields: " ++ String.intercalate ", " names
  | .positionMismatch nm o n =>
      "Field \x27" ++ nm ++ "\x27 moved from position " ++ toString o ++
        " to " ++ toString n
  | .nameChangedAtPosition i o n =>
      "Field at position " ++ toString i ++ " changed: \x27" ++ o ++
        "\x27 → \x27" ++ n ++ "\x27"
  | .typeChangedAtPosition nm o n =>
      "Field \x27" ++ nm ++ "\x27 type changed: \x27" ++ o ++ "\x27 → \x27" ++
        n ++ "\x27"

/-- The `for i, (saved, current) in enumerate(zip(saved_fields,
current_fields))` walk of lines 147-161 of the source, started at index `i`:
at each walked index the three checks are independent `if` statements, so a
position mismatch, a name change and a type change can all fire for the same
index, and the name and type checks do not condition on each other. -/
def walkFields : Nat → List StorageField → List StorageField → List Discrepancy
  | _, [], _ => []
  | _, _, [] => []
  | i, saved :: ss, current :: cc =>
    (if saved.position ≠ current.position then
       [Discrepancy.positionMismatch saved.name saved.position current.position]
     else []) ++
    (if saved.name ≠ current.name then
       [Discrepancy.nameChangedAtPosition i saved.name current.name]
     else []) ++
    (if saved.field_type ≠ current.field_type then
       [Discrepancy.typeChangedAtPosition saved.name saved.field_type current.field_type]
     else []) ++
    walkFields (i + 1) ss cc

/-- The error-accumulation of lines 126-161 of the source: the count check
(with the added/removed name-set differences computed only under a count
change, lines 129-144), followed by the positional walk.  The Python name
sets are modelled as deduplicated lists; only their membership (and hence
emptiness) is relied on, since a Python set iterates in unspecified order. -/
def compareLayouts (saved_fields current_fields : List StorageField) : List Discrepancy :=
  let lenErrs :=
    if current_fields.length ≠ saved_fields.length then
      let saved_names := (saved_fields.map StorageField.name).dedup
      let current_names := (current_fields.map StorageField.name).dedup
      let added := current_names.filter (fun n => !(saved_names.contains n))
      let removed := saved_names.filter (fun n => !(current_names.contains n))
      [Discrepancy.countChanged saved_fields.length current_fields.length] ++
        (if added.isEmpty then [] else [Discrepancy.addedFields added]) ++
        (if removed.isEmpty then [] else [Discrepancy.removedFields removed])
    else []
  lenErrs ++ walkFields 0 saved_fields current_fields

/-- The baseline store: the decoded contents of `storage-layouts.json`, a
mapping from contract name to its recorded field list (`load_saved_layouts`,
lines 78-89 of the source), embedded as an association list with the same
lookup behaviour as the Python dict. -/
abbrev Store := List (String × List StorageField)

/-- The observable outcome of one `verify_storage_unchanged` call that
returns normally: `savedBaseline` records the `(contract_name, fields)`
argument of the `save_layout` call the function performs (line 120 of the
source), or `none` when it performs no store write, and `ok`/`msg` are the
returned `Tuple[bool, Optional[str]]`. -/
structure VerifyResult where
  savedBaseline : Option (String × List StorageField)
  ok : Bool
  msg : Option String
deriving DecidableEq, Repr

/-- `StorageLayoutChecker.verify_storage_unchanged` (lines 108-166 of the
source).  The two external reads are passed as parameters: `extraction` is
the outcome of `self.extract_storage_fields(contract_name)` (an
`Except.error` models the exception the `try` of line 110 catches, including
file-read failures), and `loadResult` is the outcome of
`self.load_saved_layouts()` (an `Except.error` models an exception raised
while reading or decoding `storage-layouts.json`, which the source does not
catch — the call at line 115 sits outside the `try` block, so such an
exception propagates, modelled by the whole function returning
`Except.error`).  The informational `print` of line 119 is a side effect
with no data content and is not modelled. -/
def verify_storage_unchanged (extraction : Except String (List StorageField))
    (loadResult : Except String Store) (contract_name : String) :
    Except String VerifyResult :=
  match extraction with
  | .error e => .ok ⟨none, false, some ("Failed to extract storage: " ++ e)⟩
  | .ok current_fields =>
    match loadResult with
    | .error e => .error e
    | .ok saved_layouts =>
      match saved_layouts.lookup contract_name with
      | none => .ok ⟨some (contract_name, current_fields), true, none⟩
      | some saved_fields =>
        let errors := compareLayouts saved_fields current_fields
        if errors.isEmpty then .ok ⟨none, true, none⟩
        else
          .ok ⟨none, false,
            some (String.intercalate "\n" (List.map renderDiscrepancy errors))⟩

/-- True exactly on `Except.error`: the call raised. -/
def exceptIsError {ε α : Type} : Except ε α → Bool
  | .error _ => true
  | .ok _ => false

/-- True exactly on `Except.ok`: the call returned normally. -/
def exceptIsOk {ε α : Type} : Except ε α → Bool
  | .error _ => false
  | .ok _ => true

/-- The positions assigned by the field-collection loop are consecutive from
the running counter: retained entries are numbered `pos, pos+1, …` with no
gaps, whatever the scanned pairs are. -/
theorem buildFields_positions (ps : List (List Char × List Char)) (pos : Nat) :
    List.map StorageField.position (buildFields ps pos) =
      List.range' pos (buildFields ps pos).length := by
  induction ps generalizing pos with
  | nil => rfl
  | cons p rest ih =>
    obtain ⟨n, t⟩ := p
    simp only [buildFields]
    by_cases h : (startsWithChars ['/', '/'] (stripChars n) ||
        startsWithChars ['#'] (stripChars n)) = true
    · simpa [h] using ih pos
    · simp [h, ih (pos + 1), List.range'_succ]

/-- The positional walk never emits a discrepancy outside its three
constructors: any predicate false on position mismatches, name changes and
type changes counts zero occurrences in the walk's output. -/
theorem walkFields_countP_zero (p : Discrepancy → Bool)
    (hm : ∀ nm o n, p (.positionMismatch nm o n) = false)
    (hn : ∀ i o n, p (.nameChangedAtPosition i o n) = false)
    (ht : ∀ nm o n, p (.typeChangedAtPosition nm o n) = false)
    (i : Nat) (saved current : List StorageField) :
    (walkFields i saved current).countP p = 0 := by
  induction saved generalizing i current with
  | nil => simp [walkFields]
  | cons s ss ih =>
    cases current with
    | nil => simp [walkFields]
    | cons c cc =>
      simp only [walkFields, List.countP_append, ih]
      split_ifs <;> simp [List.countP_cons, hm, hn, ht]

/-- The positional walk emits one type-change discrepancy per walked pair
whose declared types differ — independently of whether the names at that
pair agree. -/
theorem walkFields_countP_type (i : Nat) (saved current : List StorageField) :
    (walkFields i saved current).countP Discrepancy.isTypeChanged =
      (saved.zip current).countP (fun pr => pr.1.field_type != pr.2.field_type) := by
  induction saved generalizing i current with
  | nil => simp [walkFields]
  | cons s ss ih =>
    cases current with
    | nil => simp [walkFields]
    | cons c cc =>
      simp only [walkFields, List.countP_append, List.zip_cons_cons,
        List.countP_cons, ih]
      split_ifs <;>
        simp_all [List.countP_cons, Discrepancy.isTypeChanged,
          Discrepancy.isPositionMismatch, Discrepancy.isNameChanged,
          bne_iff_ne] <;>
        omega

/-- The count/name-set stage contributes no type-change discrepancy, so the
type-change count of a whole comparison is that of its positional walk. -/
theorem compareLayouts_countP_type (saved current : List StorageField) :
    (compareLayouts saved current).countP Discrepancy.isTypeChanged =
      (walkFields 0 saved current).countP Discrepancy.isTypeChanged := by
  by_cases h : current.length ≠ saved.length
  · simp only [compareLayouts, if_pos h, List.countP_append]
    split_ifs <;> simp [List.countP_cons, Discrepancy.isTypeChanged]
  · simp [compareLayouts, h]

/-- The baseline of the move-detection example: fields `x` and `y` of type
`int` at positions 0 and 1. -/
def moveBaseline : List StorageField := [⟨"x", "int", 0⟩, ⟨"y", "int", 1⟩]

/-- The current snapshot of the move-detection example: the same two fields
swapped. -/
def moveCurrent : List StorageField := [⟨"y", "int", 0⟩, ⟨"x", "int", 1⟩]

/-- Claim C1 is false on the code: comparing the swapped-fields example
yields zero position-mismatch discrepancies (not two) and two
name-changed-at-position discrepancies (the claim says none).  The walk of
lines 147-161 compares the recorded `position` attributes at the same zip
index — both are their index, so the move check never fires — and then
reports the differing names at each index as name changes. -/
theorem claim_c1_counterexample :
    (compareLayouts moveBaseline moveCurrent).countP Discrepancy.isPositionMismatch = 0 ∧
    (compareLayouts moveBaseline moveCurrent).countP Discrepancy.isNameChanged = 2 := by
  decide

/-- Claim C1 amended: for the swapped-fields example the comparison reports
exactly two name-changed-at-position discrepancies (position 0: `x` → `y`,
position 1: `y` → `x`) and no position-mismatch, field-added or
field-removed discrepancy. -/
theorem claim_c1_amended :
    compareLayouts moveBaseline moveCurrent =
      [Discrepancy.nameChangedAtPosition 0 "x" "y",
       Discrepancy.nameChangedAtPosition 1 "y" "x"] := by
  decide

/-- A contract text whose storage struct has a field typed with a bracketed
generic containing a comma, the very example of the source's own comment at
line 50. -/
def mappingContract : String :=
  "#[ink(storage)]pub struct DNine \x7b\n    balances: Mapping<AccountId, Balance>,\n    admin: AccountId,\n\x7d"

/-- Claim C2 fails on the code (code bug): on a field declared
`balances: Mapping<AccountId, Balance>,` the field pattern
`(\w+)\s*:\s*([^,]+),` of line 52 stops the type capture at the internal
comma of the generic, so extraction records the truncated declared type
`Mapping<AccountId>`-less tail `Mapping<AccountId` and silently drops
` Balance>` — although the comment at line 50 of the source lists exactly
this shape among the handled patterns, and the spec requires the full raw
type expression. -/
theorem claim_c2_eval :
    extract_storage_fields mappingContract =
      Except.ok [⟨"balances", "Mapping<AccountId", 0⟩, ⟨"admin", "AccountId", 1⟩] := by
  rfl

/-- A contract text whose storage struct is found but whose body consists of
entries that cannot be decomposed into name-and-type fields. -/
def garbageBodyContract : String :=
  "#[ink(storage)]pub struct Broken \x7bfoo bar\x7d"

/-- Claim C4 is false on the code: when the storage struct is found but its
body cannot be decomposed into well-formed field entries, extraction does
not fail with a distinct malformed-block error — it succeeds, silently
skipping every undecomposable entry (here returning the empty field list).
The only failure the source can raise is the `ValueError` of line 41. -/
theorem claim_c4_counterexample :
    extract_storage_fields garbageBodyContract = Except.ok [] := by
  rfl

/-- Claim C4 amended: extraction fails exactly when no storage-struct block
matching the pattern of line 37 exists in the text, and then with the
not-found error; whenever the block is found, extraction succeeds, silently
skipping entries that do not match the field pattern — no malformed-block
error exists. -/
theorem claim_c4_amended (content : String) :
    (searchStorage content.toList = none →
      extract_storage_fields content = Except.error "No storage struct found") ∧
    (∀ body, searchStorage content.toList = some body →
      ∃ fields, extract_storage_fields content = Except.ok fields) := by
  constructor
  · intro h
    simp only [String.toList] at h
    simp [extract_storage_fields, h]
  · intro body h
    simp only [String.toList] at h
    refine ⟨buildFields (scanFields (stripBlockComments (stripLineComments body))) 0, ?_⟩
    simp [extract_storage_fields, h]

/-- Witness for the amended claim C4 at concrete inputs: a text with no
storage struct yields the not-found error, and the garbage-body text (whose
struct body is `foo bar`) extracts successfully. -/
theorem claim_c4_witness :
    extract_storage_fields "fn main() \x7b\x7d" = Except.error "No storage struct found" ∧
    ∃ fields, extract_storage_fields garbageBodyContract = Except.ok fields :=
  ⟨(claim_c4_amended "fn main() \x7b\x7d").1 rfl,
   (claim_c4_amended garbageBodyContract).2 "foo bar".toList rfl⟩

/-- A contract text whose storage struct declares the same field name
twice. -/
def duplicateNameContract : String :=
  "#[ink(storage)]pub struct Dup \x7ba: u8,a: u16,\x7d"

/-- Claim C5 is false on the code in its uniqueness half: extraction does
not deduplicate or reject repeated names, so a declaration text repeating a
field name extracts successfully with duplicate names in the result. -/
theorem claim_c5_counterexample :
    extract_storage_fields duplicateNameContract =
      Except.ok [⟨"a", "u8", 0⟩, ⟨"a", "u16", 1⟩] ∧
    ¬ List.Nodup (List.map StorageField.name [⟨"a", "u8", 0⟩, ⟨"a", "u16", 1⟩]) :=
  ⟨rfl, by decide⟩

/-- Claim C5 amended: whenever extraction succeeds, the positions of the
resulting field list form the dense, strictly increasing sequence
`0, 1, 2, …` with no gaps; names, however, need not be pairwise distinct
(the extractor performs no deduplication, as the counterexample shows). -/
theorem claim_c5_amended (content : String) (fields : List StorageField)
    (h : extract_storage_fields content = Except.ok fields) :
    List.map StorageField.position fields = List.range fields.length := by
  unfold extract_storage_fields at h
  simp only [String.toList] at h
  cases hs : searchStorage content.data with
  | none => rw [hs] at h; cases h
  | some body =>
    rw [hs] at h
    obtain rfl : _ = fields := Except.ok.inj h
    rw [List.range_eq_range']
    exact buildFields_positions _ 0

/-- Witness for the amended claim C5 at a concrete input: the mapping
contract extracts successfully and its positions are `[0, 1]`. -/
theorem claim_c5_witness :
    List.map StorageField.position
        [(⟨"balances", "Mapping<AccountId", 0⟩ : StorageField), ⟨"admin", "AccountId", 1⟩] =
      List.range 2 :=
  claim_c5_amended mappingContract _ rfl

/-- Claim C6 is false on the code in its "exactly when" half: the name check
and the type check of lines 153-161 are independent `if` statements, so a
type-change discrepancy is also emitted at a position where the names
disagree, as comparing baseline `[(a:u64,0)]` with current `[(b:u128,0)]`
shows (names differ, yet the type change is reported alongside the name
change). -/
theorem claim_c6_counterexample :
    compareLayouts [⟨"a", "u64", 0⟩] [⟨"b", "u128", 0⟩] =
      [Discrepancy.nameChangedAtPosition 0 "a" "b",
       Discrepancy.typeChangedAtPosition "a" "u64" "u128"] ∧
    ("a" : String) ≠ "b" := by
  constructor
  · decide
  · decide

/-- Claim C6 amended: during the positional walk a type-change discrepancy
is emitted at a position exactly when the baseline and current declared
types at that position differ — regardless of whether the names there match
— and the balance example yields exactly one discrepancy, the type change
`u64` → `u128` for `balance`. -/
theorem claim_c6_amended :
    (∀ saved current : List StorageField,
      (compareLayouts saved current).countP Discrepancy.isTypeChanged =
        (saved.zip current).countP (fun pr => pr.1.field_type != pr.2.field_type)) ∧
    compareLayouts [⟨"balance", "u64", 0⟩] [⟨"balance", "u128", 0⟩] =
      [Discrepancy.typeChangedAtPosition "balance" "u64" "u128"] := by
  constructor
  · intro saved current
    rw [compareLayouts_countP_type, walkFields_countP_type]
  · decide

/-- Claim C9: whenever baseline and current snapshots have equal field
counts, the comparison emits no field-added and no field-removed
discrepancy — the name-set differences of lines 134-144 are computed only
under the count-change branch, however the name sets differ. -/
theorem claim_c9 (saved current : List StorageField)
    (h : saved.length = current.length) :
    (compareLayouts saved current).countP Discrepancy.isAdded = 0 ∧
    (compareLayouts saved current).countP Discrepancy.isRemoved = 0 := by
  have hlen : ¬ current.length ≠ saved.length := by omega
  have hadded := walkFields_countP_zero Discrepancy.isAdded
    (fun _ _ _ => rfl) (fun _ _ _ => rfl) (fun _ _ _ => rfl) 0 saved current
  have hremoved := walkFields_countP_zero Discrepancy.isRemoved
    (fun _ _ _ => rfl) (fun _ _ _ => rfl) (fun _ _ _ => rfl) 0 saved current
  constructor <;> simp [compareLayouts, hlen, hadded, hremoved]

/-- Witness for claim C9 at a concrete input with equal counts but disjoint
name sets: a same-count rename produces no added/removed discrepancy. -/
theorem claim_c9_witness :
    (compareLayouts [⟨"old_admin", "AccountId", 0⟩]
        [⟨"new_admin", "AccountId", 0⟩]).countP Discrepancy.isAdded = 0 ∧
    (compareLayouts [⟨"old_admin", "AccountId", 0⟩]
        [⟨"new_admin", "AccountId", 0⟩]).countP Discrepancy.isRemoved = 0 :=
  claim_c9 [⟨"old_admin", "AccountId", 0⟩] [⟨"new_admin", "AccountId", 0⟩] rfl

/-- Claim C3 is false on the code in its no-persistence half: when no
baseline exists for the contract, `verify_storage_unchanged` itself calls
`save_layout` (line 120 of the source) before returning success — the
recorded write (`savedBaseline`) is `some`, not `none`, so the checker does
persist the current snapshot rather than leaving persistence to the
caller. -/
theorem claim_c3_counterexample :
    verify_storage_unchanged (Except.ok [⟨"admin", "AccountId", 0⟩])
        (Except.ok []) "d9_main" =
      Except.ok ⟨some ("d9_main", [⟨"admin", "AccountId", 0⟩]), true, none⟩ ∧
    (some ("d9_main", [(⟨"admin", "AccountId", 0⟩ : StorageField)]) ≠
      (none : Option (String × List StorageField))) :=
  ⟨rfl, by decide⟩

/-- Claim C3 amended: when no baseline exists the checker returns the
first-observation outcome and itself persists the current snapshot as the
new baseline; on every subsequent check (a baseline is present) it performs
no store write, whatever the comparison outcome. -/
theorem claim_c3_amended (fields : List StorageField) (store : Store)
    (contract : String) :
    (store.lookup contract = none →
      verify_storage_unchanged (Except.ok fields) (Except.ok store) contract =
        Except.ok ⟨some (contract, fields), true, none⟩) ∧
    (∀ saved, store.lookup contract = some saved →
      ∃ ok msg,
        verify_storage_unchanged (Except.ok fields) (Except.ok store) contract =
          Except.ok ⟨none, ok, msg⟩) := by
  constructor
  · intro h
    simp [verify_storage_unchanged, h]
  · intro saved h
    simp only [verify_storage_unchanged, h]
    by_cases he : (compareLayouts saved fields).isEmpty
    · exact ⟨true, none, by simp [he]⟩
    · exact ⟨false, some (String.intercalate "\n"
        (List.map renderDiscrepancy (compareLayouts saved fields))), by simp [he]⟩

/-- Witness for the amended claim C3 at concrete inputs: with an empty store
the checker writes the snapshot, and with the baseline already present it
writes nothing. -/
theorem claim_c3_witness :
    verify_storage_unchanged (Except.ok [⟨"admin", "AccountId", 0⟩])
        (Except.ok []) "d9_burn" =
      Except.ok ⟨some ("d9_burn", [⟨"admin", "AccountId", 0⟩]), true, none⟩ ∧
    ∃ ok msg,
      verify_storage_unchanged (Except.ok [⟨"admin", "AccountId", 0⟩])
          (Except.ok [("d9_burn", [⟨"admin", "AccountId", 0⟩])]) "d9_burn" =
        Except.ok ⟨none, ok, msg⟩ :=
  ⟨(claim_c3_amended [⟨"admin", "AccountId", 0⟩] [] "d9_burn").1 rfl,
   (claim_c3_amended [⟨"admin", "AccountId", 0⟩]
      [("d9_burn", [⟨"admin", "AccountId", 0⟩])] "d9_burn").2
     [⟨"admin", "AccountId", 0⟩] rfl⟩

/-- Claim C7: for every snapshot, including the empty one, checking against
an absent baseline takes the first-time branch of lines 118-121 of the
source and returns success with no message — never the violations
outcome. -/
theorem claim_c7 (fields : List StorageField) (store : Store)
    (contract : String) (h : store.lookup contract = none) :
    verify_storage_unchanged (Except.ok fields) (Except.ok store) contract =
      Except.ok ⟨some (contract, fields), true, none⟩ := by
  simp [verify_storage_unchanged, h]

/-- Witness for claim C7 at a concrete input: the empty snapshot against an
empty store. -/
theorem claim_c7_witness :
    verify_storage_unchanged (Except.ok []) (Except.ok []) "d9_node_reward" =
      Except.ok ⟨some ("d9_node_reward", []), true, none⟩ :=
  claim_c7 [] [] "d9_node_reward" rfl

/-- Claim C8: when extraction fails, the `except` of lines 112-113 of the
source converts the exception into the failure result before the baseline
store is ever read or written — the returned write record is `none`, so a
failed extraction is never recorded as a baseline and never overwrites
one. -/
theorem claim_c8 (e : String) (loadResult : Except String Store)
    (contract : String) :
    verify_storage_unchanged (Except.error e) loadResult contract =
      Except.ok ⟨none, false, some ("Failed to extract storage: " ++ e)⟩ :=
  rfl

/-- Witness for claim C8 at a concrete input: the not-found extraction error
aborts the check with a failure message and no store write. -/
theorem claim_c8_witness :
    verify_storage_unchanged (Except.error "No storage struct found")
        (Except.ok [("d9_main", [⟨"admin", "AccountId", 0⟩])]) "d9_main" =
      Except.ok ⟨none, false,
        some ("Failed to extract storage: " ++ "No storage struct found")⟩ :=
  claim_c8 "No storage struct found"
    (Except.ok [("d9_main", [⟨"admin", "AccountId", 0⟩])]) "d9_main"

/-- Claim C10 is false on the code: `self.load_saved_layouts()` is called at
line 115, outside the `try` block of lines 110-113, so an exception raised
while reading or decoding `storage-layouts.json` (for example the
`json.JSONDecodeError` on a malformed layout file) propagates to the caller
instead of being converted into a failure result. -/
theorem claim_c10_counterexample :
    verify_storage_unchanged (Except.ok [⟨"admin", "AccountId", 0⟩])
        (Except.error "Expecting value: line 1 column 1 (char 0)") "d9_main" =
      Except.error "Expecting value: line 1 column 1 (char 0)" :=
  rfl

/-- Claim C10 amended: every exception thrown during extraction is caught
and converted into a failure result, and the comparison paths all return a
`(bool, message)` result — but the call raises to its caller exactly when
extraction succeeded and loading the baseline store raised. -/
theorem claim_c10_amended (extraction : Except String (List StorageField))
    (loadResult : Except String Store) (contract : String) :
    exceptIsError (verify_storage_unchanged extraction loadResult contract) =
      (exceptIsOk extraction && exceptIsError loadResult) := by
  cases extraction with
  | error e => rfl
  | ok fields =>
    cases loadResult with
    | error e => rfl
    | ok store =>
      simp only [verify_storage_unchanged, exceptIsOk, exceptIsError, Bool.true_and]
      cases h : store.lookup contract with
      | none => simp [h, exceptIsError]
      | some saved =>
        by_cases he : (compareLayouts saved fields).isEmpty <;>
          simp [h, he, exceptIsError]

/-- Witness for the amended claim C10 at concrete inputs: a caught
extraction failure returns normally, and a load failure after a successful
extraction raises. -/
theorem claim_c10_witness :
    exceptIsError (verify_storage_unchanged
        (Except.error "No storage struct found")
        (Except.error "Expecting value: line 1 column 1 (char 0)") "d9_usdt") =
      (exceptIsOk (Except.error "No storage struct found" :
          Except String (List StorageField)) &&
        exceptIsError (Except.error "Expecting value: line 1 column 1 (char 0)" :
          Except String Store)) ∧
    exceptIsError (verify_storage_unchanged
        (Except.ok [] : Except String (List StorageField))
        (Except.error "Expecting value: line 1 column 1 (char 0)") "d9_usdt") =
      (exceptIsOk (Except.ok [] : Except String (List StorageField)) &&
        exceptIsError (Except.error "Expecting value: line 1 column 1 (char 0)" :
          Except String Store)) :=
  ⟨claim_c10_amended (Except.error "No storage struct found")
      (Except.error "Expecting value: line 1 column 1 (char 0)") "d9_usdt",
   claim_c10_amended (Except.ok [])
      (Except.error "Expecting value: line 1 column 1 (char 0)") "d9_usdt"⟩

end VerifyStorage
